import Mathlib

/-!
Shallow embedding of the Trivanta Edge ERP core (security manager, data
repository, analytics engine) together with proofs about the claims of
its specification.  Python dicts are embedded as Lean structures, the
JSON document as a `Store` record of lists, mutation as explicit state
passing, and sources of nondeterminism (clock, random generator, request
form data) as explicit parameters.
-/

namespace ERP

/-! ### Security manager: bcrypt password hashing (src/utils/security.py)

`hash_password` calls `bcrypt.gensalt(rounds=12)` and `bcrypt.hashpw`;
`verify_password` calls `bcrypt.checkpw`, which re-derives the digest
from the candidate password using the cost and salt stored in the hash
and compares.  The bcrypt algorithm uses only the first 72 bytes of the
password (documented behaviour of the EksBlowfish key schedule); we keep
that truncation and model the key-derivation function itself abstractly
as an injective function of the truncated key for a fixed cost and salt.
-/

/-- A byte string, the result of Python `password.encode('utf-8')`. -/
abbrev Bytes := List Nat

/-- The modular crypt format string produced by `bcrypt.hashpw`: it
records the cost factor, the salt, and the derived digest. -/
structure BcryptHash where
  cost : Nat
  salt : Nat
  digest : Bytes
deriving DecidableEq, Repr

/-- bcrypt ignores every byte of the password past the 72nd. -/
def bcryptTruncate (p : Bytes) : Bytes := p.take 72

/-- The EksBlowfish key derivation, modelled as an injective function of
the truncated key for fixed cost and salt. -/
def bcryptKdf (_cost _salt : Nat) (key : Bytes) : Bytes := key

/-- Python `bcrypt.hashpw(password, gensalt(rounds=cost))` with the
drawn salt made explicit. -/
def bcryptHashpw (password : Bytes) (cost salt : Nat) : BcryptHash :=
  { cost := cost, salt := salt, digest := bcryptKdf cost salt (bcryptTruncate password) }

/-- Python `bcrypt.checkpw(password, hashed)`: re-hash the candidate
with the stored cost and salt and compare with the stored hash. -/
def bcryptCheckpw (password : Bytes) (h : BcryptHash) : Bool :=
  bcryptHashpw password h.cost h.salt == h

/-- `SecurityManager.hash_password` (security.py lines 17-21): bcrypt
with `salt_rounds = 12` and a per-call random salt, here explicit. -/
def hash_password (password : Bytes) (salt : Nat) : BcryptHash :=
  bcryptHashpw password 12 salt

/-- `SecurityManager.verify_password` (security.py lines 23-25). -/
def verify_password (password : Bytes) (h : BcryptHash) : Bool :=
  bcryptCheckpw password h

/-! ### Calendar dates

Python `datetime.date` values compare lexicographically by
(year, month, day); `datetime.strptime(s, '%Y-%m-%d').date()` parses the
ISO date strings stored in project records.  Empty date strings are
embedded as `none`. -/

structure Date where
  year : Nat
  month : Nat
  day : Nat
deriving DecidableEq, Repr

/-- Lexicographic order on dates, as Python compares `date` objects. -/
def Date.le (a b : Date) : Bool :=
  if a.year ≠ b.year then a.year < b.year
  else if a.month ≠ b.month then a.month < b.month
  else a.day ≤ b.day

/-- Strict order on dates. -/
def Date.lt (a b : Date) : Bool :=
  Date.le a b && !(a == b)

/-- Days since the civil epoch, used for Python `(end - start).days`
(standard civil-from-days computation, valid for year ≥ 1). -/
def Date.rataDie (d : Date) : Int :=
  let y : Int := if d.month ≤ 2 then (d.year : Int) - 1 else (d.year : Int)
  let era : Int := y / 400
  let yoe : Int := y - era * 400
  let mp : Int := ((d.month : Int) + 9) % 12
  let doy : Int := (153 * mp + 2) / 5 + (d.day : Int) - 1
  let doe : Int := yoe * 365 + yoe / 4 - yoe / 100 + doy
  era * 146097 + doe

/-- Python `datetime` value: a date plus the time of day (only whether
and how far past midnight matters for the comparisons in the source). -/
structure DateTime where
  date : Date
  secondOfDay : Nat
deriving DecidableEq, Repr

/-- Strict comparison of `datetime` values; `strptime` of a plain date
yields midnight of that date. -/
def DateTime.lt (a b : DateTime) : Bool :=
  Date.lt a.date b.date || (a.date == b.date && a.secondOfDay < b.secondOfDay)

/-- Left-pad a numeral with zeros to width 2 (strftime %m / %d). -/
def pad2 (n : Nat) : String := if n < 10 then "0" ++ toString n else toString n

/-- Python format `{n:03d}`: zero-pad to width 3, wider numbers kept. -/
def pad3 (n : Nat) : String :=
  if n < 10 then "00" ++ toString n
  else if n < 100 then "0" ++ toString n
  else toString n

/-- Python `str(n).zfill(5)`. -/
def zfill5 (s : String) : String :=
  if 5 ≤ s.length then s else String.mk (List.replicate (5 - s.length) '0' ++ s.data)

/-- strftime('%Y-%m-%d') for the dates appearing in this system. -/
def dateIso (d : Date) : String :=
  toString d.year ++ "-" ++ pad2 d.month ++ "-" ++ pad2 d.day

/-! ### Entity records (src/utils/data_manager.py)

Each record mirrors the dict built by the corresponding `create_X`
method; fields that are only attached later by updates (`updated_at`,
`deleted_at`, and the joined-in `employee_name` / `department` of
attendance records) are `Option`-valued, `none` standing for an absent
key.  Monetary values (Python floats) are embedded as exact rationals;
the empty-string dates of project records are embedded as `none`. -/

structure User where
  id : String
  name : String
  email : String
  password : String
  role : String
  department : String
  created_at : String
  status : String
  api_key : String
  updated_at : Option String := none
  deleted_at : Option String := none
deriving DecidableEq, Repr

structure Client where
  id : String
  name : String
  email : String
  phone : String
  company : String
  business_type : String
  address : String
  created_at : String
  status : String
  updated_at : Option String := none
  deleted_at : Option String := none
deriving DecidableEq, Repr

structure Project where
  id : String
  name : String
  type : String
  client_id : String
  description : String
  status : String
  start_date : Option Date := none
  end_date : Option Date := none
  budget : ℚ := 0
  assigned_employees : List String := []
  created_at : String
  created_by : String
  updated_at : Option String := none
  deleted_at : Option String := none
deriving DecidableEq, Repr

structure Lead where
  id : String
  name : String
  email : String
  phone : String
  company : String
  business_type : String
  source : String
  status : String
  assigned_to : String
  notes : String
  created_at : String
  created_by : String
  updated_at : Option String := none
  deleted_at : Option String := none
deriving DecidableEq, Repr

structure Attendance where
  id : String
  employee_id : String
  date : String
  check_in : String
  check_out : String
  otp_used : String
  location : String
  status : String
  employee_name : Option String := none
  department : Option String := none
  updated_at : Option String := none
deriving DecidableEq, Repr

structure Task where
  id : String
  title : String
  description : String
  project_id : String
  assigned_to : String
  priority : String
  status : String
  due_date : String
  created_at : String
  created_by : String
  updated_at : Option String := none
deriving DecidableEq, Repr

/-- The in-memory JSON document (`DataManager.get_default_structure`).
The unused `employees` list and the static `analytics` sub-dict of the
default structure are not touched by any embedded operation and are
omitted; `daily_otp_date` is read with `.get(..., '')`, so an absent key
is the empty string. -/
structure Store where
  users : List User := []
  clients : List Client := []
  projects : List Project := []
  leads : List Lead := []
  attendance : List Attendance := []
  tasks : List Task := []
  daily_otp : String := ""
  daily_otp_date : String := ""
deriving DecidableEq, Repr

/-- Python `json.dump(self.data, f, ...)` (`DataManager.save_data`,
lines 29-32): the whole document is serialized faithfully, so the
document on disk after a save is the store itself. -/
def save_data (s : Store) : Store := s

/-- Mutate the first element satisfying `p` (Python's scan-and-mutate /
`dict.update` pattern on the record returned by a `get_X_by_id`). -/
def updateFirst (p : α → Bool) (f : α → α) : List α → List α
  | [] => []
  | x :: xs => if p x then f x :: xs else x :: updateFirst p f xs

/-- Id assignment used by every `create_X`:
Python f-string `"{prefix}_{count+1:03d}"` applied to the collection's
current length. -/
def mkEntityId (pre : String) (count : Nat) : String :=
  pre ++ "_" ++ pad3 (count + 1)

/-! ### User management (data_manager.py lines 221-280)

Every mutation in the source ends with `save_data`; since serialization
is the identity embedding, mutators simply return the new store.  The
wall clock (`datetime.now()`) and the random api key are explicit
parameters. -/

def get_user_by_id (s : Store) (user_id : String) : Option User :=
  s.users.find? (fun u => u.id == user_id)

/-- Input dict of `create_user`; optional keys read with `.get`. -/
structure UserData where
  name : String
  email : String
  password : String
  role : String
  department : Option String := none

/-- `DataManager.create_user` (lines 238-254).  The password field is
stored exactly as passed in (source comment: "Should already be
hashed"); `create_user` never calls `hash_password`. -/
def create_user (s : Store) (ud : UserData) (now api_key : String) : User × Store :=
  let user_id := mkEntityId ud.role s.users.length
  let user : User :=
    { id := user_id, name := ud.name, email := ud.email, password := ud.password,
      role := ud.role, department := ud.department.getD "General",
      created_at := now, status := "active", api_key := api_key }
  (user, { s with users := s.users ++ [user] })

/-- `DataManager.get_all_users` (lines 276-280). -/
def get_all_users (s : Store) (role : Option String) : List User :=
  match role with
  | some r => s.users.filter (fun u => u.role == r && u.status == "active")
  | none => s.users.filter (fun u => u.status == "active")

/-! ### Client management (data_manager.py lines 282-332) -/

structure ClientData where
  name : String
  email : String
  phone : Option String := none
  company : Option String := none
  business_type : String
  address : Option String := none

/-- `DataManager.create_client` (lines 283-299). -/
def create_client (s : Store) (cd : ClientData) (now : String) : Client × Store :=
  let client_id := mkEntityId "client" s.clients.length
  let client : Client :=
    { id := client_id, name := cd.name, email := cd.email, phone := cd.phone.getD "",
      company := cd.company.getD "", business_type := cd.business_type,
      address := cd.address.getD "", created_at := now, status := "active" }
  (client, { s with clients := s.clients ++ [client] })

/-- `DataManager.get_client_by_id` (lines 301-306): linear scan, first
match. -/
def get_client_by_id (s : Store) (client_id : String) : Option Client :=
  s.clients.find? (fun c => c.id == client_id)

/-- `DataManager.delete_client` (lines 318-326): soft delete, flips the
status of the record found by `get_client_by_id` and stamps
`deleted_at`. -/
def delete_client (s : Store) (client_id : String) (now : String) : Bool × Store :=
  match get_client_by_id s client_id with
  | none => (false, s)
  | some _ =>
    let clients2 := updateFirst (fun c => c.id == client_id)
      (fun c => { c with status := "inactive", deleted_at := some now }) s.clients
    (true, { s with clients := clients2 })

/-- `DataManager.get_all_clients` (lines 328-332); `none` is Python's
falsy `business_type` argument. -/
def get_all_clients (s : Store) (business_type : Option String) : List Client :=
  match business_type with
  | some bt => s.clients.filter (fun c => c.business_type == bt && c.status == "active")
  | none => s.clients.filter (fun c => c.status == "active")

/-! ### Project management (data_manager.py lines 334-391) -/

structure ProjectData where
  name : String
  type : String
  client_id : String
  description : Option String := none
  start_date : Option Date := none
  end_date : Option Date := none
  budget : Option ℚ := none
  assigned_employees : Option (List String) := none
  created_by : String

/-- `DataManager.create_project` (lines 335-354): status starts at
"pending", absent budget defaults to 0. -/
def create_project (s : Store) (pd : ProjectData) (now : String) : Project × Store :=
  let project_id := mkEntityId "project" s.projects.length
  let project : Project :=
    { id := project_id, name := pd.name, type := pd.type, client_id := pd.client_id,
      description := pd.description.getD "", status := "pending",
      start_date := pd.start_date, end_date := pd.end_date,
      budget := pd.budget.getD 0, assigned_employees := pd.assigned_employees.getD [],
      created_at := now, created_by := pd.created_by }
  (project, { s with projects := s.projects ++ [project] })

/-- `DataManager.get_all_projects` (lines 383-387): excludes
soft-deleted projects. -/
def get_all_projects (s : Store) (project_type : Option String) : List Project :=
  match project_type with
  | some t => s.projects.filter (fun p => p.type == t && p.status != "deleted")
  | none => s.projects.filter (fun p => p.status != "deleted")

/-! ### Lead management (data_manager.py lines 393-446) -/

def get_lead_by_id (s : Store) (lead_id : String) : Option Lead :=
  s.leads.find? (fun l => l.id == lead_id)

/-- `DataManager.update_lead` (lines 422-430): the Python `dict.update`
merge on the found record is embedded as an update function applied to
the first record with the given id, followed by the `updated_at`
stamp. -/
def update_lead (s : Store) (lead_id : String) (updates : Lead → Lead) (now : String) :
    Option Lead × Store :=
  match get_lead_by_id s lead_id with
  | none => (none, s)
  | some l =>
    let l2 := { updates l with updated_at := some now }
    let leads2 := updateFirst (fun x => x.id == lead_id)
      (fun x => { updates x with updated_at := some now }) s.leads
    (some l2, { s with leads := leads2 })

/-! ### Attendance management (data_manager.py lines 448-535) -/

structure AttendanceData where
  employee_id : String
  date : String
  check_in : Option String := none
  check_out : Option String := none
  otp_used : Option String := none
  location : Option String := none

/-- `DataManager.create_attendance_record` (lines 449-464). -/
def create_attendance_record (s : Store) (ad : AttendanceData) : Attendance × Store :=
  let attendance_id := mkEntityId "attendance" s.attendance.length
  let record : Attendance :=
    { id := attendance_id, employee_id := ad.employee_id, date := ad.date,
      check_in := ad.check_in.getD "", check_out := ad.check_out.getD "",
      otp_used := ad.otp_used.getD "", location := ad.location.getD "",
      status := "present" }
  (record, { s with attendance := s.attendance ++ [record] })

/-- `DataManager.delete_attendance` (lines 498-505): HARD delete, the
record with the first matching id is physically removed. -/
def delete_attendance (s : Store) (attendance_id : String) : Bool × Store :=
  if s.attendance.any (fun r => r.id == attendance_id) then
    (true, { s with attendance := s.attendance.eraseP (fun r => r.id == attendance_id) })
  else (false, s)

/-- The per-record mutation performed inside `get_attendance_by_date`:
a record whose date matches and whose employee resolves has
`employee_name` and `department` copied in from the user record (the
stored dict itself is mutated). -/
def enrichAttendance (users : List User) (date : String) (r : Attendance) : Attendance :=
  if r.date == date then
    match users.find? (fun u => u.id == r.employee_id) with
    | some emp => { r with employee_name := some emp.name, department := some emp.department }
    | none => r
  else r

/-- `DataManager.get_attendance_by_date` (lines 507-523).  Returns the
selected (already enriched) records AND the mutated store: the source
mutates the stored dicts in place, including records later skipped by
the department filter.  `none` is Python's falsy `department`. -/
def get_attendance_by_date (s : Store) (date : String) (department : Option String) :
    List Attendance × Store :=
  let enriched := s.attendance.map (enrichAttendance s.users date)
  let records := enriched.filter (fun r =>
    r.date == date &&
    match s.users.find? (fun u => u.id == r.employee_id) with
    | some emp =>
      match department with
      | some d => emp.department == d
      | none => true
    | none => false)
  (records, { s with attendance := enriched })

/-! ### Task management (data_manager.py lines 677-734) -/

structure TaskData where
  title : String
  description : Option String := none
  project_id : Option String := none
  assigned_to : Option String := none
  priority : Option String := none
  due_date : Option String := none
  created_by : String

/-- `DataManager.create_task` (lines 678-695). -/
def create_task (s : Store) (td : TaskData) (now : String) : Task × Store :=
  let task_id := mkEntityId "task" s.tasks.length
  let task : Task :=
    { id := task_id, title := td.title, description := td.description.getD "",
      project_id := td.project_id.getD "", assigned_to := td.assigned_to.getD "",
      priority := td.priority.getD "medium", status := "pending",
      due_date := td.due_date.getD "", created_at := now, created_by := td.created_by }
  (task, { s with tasks := s.tasks ++ [task] })

/-- `DataManager.delete_task` (lines 714-721): HARD delete. -/
def delete_task (s : Store) (task_id : String) : Bool × Store :=
  if s.tasks.any (fun t => t.id == task_id) then
    (true, { s with tasks := s.tasks.eraseP (fun t => t.id == task_id) })
  else (false, s)

/-! ### OTP lifecycle (data_manager.py lines 537-565)

`secrets.randbelow(100000)` is embedded as an explicit draw `r` reduced
mod 100000. -/

/-- The OTP string built by `generate_daily_otp`:
`str(secrets.randbelow(100000)).zfill(5)`. -/
def otpOfDraw (r : Nat) : String := zfill5 (toString (r % 100000))

/-- `DataManager.set_daily_otp` (lines 544-549). -/
def set_daily_otp (s : Store) (otp today : String) : String × Store :=
  (otp, { s with daily_otp := otp, daily_otp_date := today })

/-- `DataManager.generate_daily_otp` (lines 538-542). -/
def generate_daily_otp (s : Store) (r : Nat) (today : String) : String × Store :=
  set_daily_otp s (otpOfDraw r) today

/-- `DataManager.get_daily_otp` (lines 551-560): regenerates when the
stored date differs from today, otherwise returns the stored value. -/
def get_daily_otp (s : Store) (today : String) (r : Nat) : String × Store :=
  if s.daily_otp_date != today then generate_daily_otp s r today
  else (s.daily_otp, s)

/-! ### Business process automation (data_manager.py lines 624-641) -/

/-- Body of the loop of `auto_update_project_status` for one project:
note the two `if`s run in sequence, so a pending project whose start AND
end dates have both passed flips twice within the same call. -/
def autoUpdateOne (today : Date) (now : String) (p : Project) : Project :=
  if p.status == "pending" || p.status == "in_progress" then
    let p1 :=
      match p.start_date with
      | some sd =>
        if Date.le sd today && p.status == "pending" then
          { p with status := "in_progress", updated_at := some now }
        else p
      | none => p
    match p1.end_date with
    | some ed =>
      if Date.le ed today && p1.status == "in_progress" then
        { p1 with status := "completed", updated_at := some now }
      else p1
    | none => p1
  else p

/-- `DataManager.auto_update_project_status` (lines 624-641). -/
def auto_update_project_status (s : Store) (today : Date) (now : String) : Store :=
  { s with projects := s.projects.map (autoUpdateOne today now) }

/-! ### Lead conversion route (src/routes/admin.py lines 340-384)

`convert_lead` reads the posted form, creates a client from the lead,
a project referencing the new client, and flips the lead's status to
"converted".  `create_client` / `create_project` always return a record,
so the two "Failed to create" branches of the source are unreachable.
Form fields and the session user id are explicit parameters;
`float(request.form.get('budget', 0))` becomes a rational. -/

structure ConvertForm where
  client_name : String
  company : String
  project_name : String
  project_type : String
  description : String
  start_date : Option Date := none
  budget : ℚ := 0

def convert_lead (s : Store) (lead_id : String) (form : ConvertForm)
    (session_user now : String) : Store :=
  match get_lead_by_id s lead_id with
  | none => s
  | some lead =>
    let cd : ClientData :=
      { name := form.client_name, email := lead.email, phone := some lead.phone,
        company := some form.company, business_type := lead.business_type,
        address := some "" }
    let res1 := create_client s cd now
    let pd : ProjectData :=
      { name := form.project_name, type := form.project_type,
        client_id := res1.1.id, description := some form.description,
        start_date := form.start_date, budget := some form.budget,
        created_by := session_user }
    let res2 := create_project res1.2 pd now
    (update_lead res2.2 lead_id (fun l => { l with status := "converted" }) now).2

/-! ### Analytics engine (src/utils/analytics_engine.py)

Read-side aggregation.  Python float arithmetic is embedded as exact
rational arithmetic; Python dicts built by insertion-order accumulation
become association lists with in-place accumulation.  The wall clock is
an explicit `DateTime` parameter where the source calls
`datetime.now()`. -/

/-- defaultdict-style accumulation into an insertion-ordered dict. -/
def bumpAssoc (l : List (String × ℚ)) (k : String) (v : ℚ) : List (String × ℚ) :=
  match l with
  | [] => [(k, v)]
  | (k0, v0) :: rest =>
    if k0 == k then (k0, v0 + v) :: rest else (k0, v0) :: bumpAssoc rest k v

/-- Dict assignment `d[k] = v`, overwriting an existing key in place. -/
def setAssoc (l : List (String × α)) (k : String) (v : α) : List (String × α) :=
  match l with
  | [] => [(k, v)]
  | (k0, v0) :: rest =>
    if k0 == k then (k0, v) :: rest else (k0, v0) :: setAssoc rest k v

/-- `AnalyticsEngine._calculate_monthly_revenue` (lines 278-288):
group non-empty `created_at` by its month prefix and sum budgets. -/
def calculate_monthly_revenue (s : Store) : List (String × ℚ) :=
  (get_all_projects s none).foldl
    (fun acc p =>
      if p.created_at.isEmpty then acc
      else bumpAssoc acc (p.created_at.take 7) p.budget) []

structure FinancialAnalytics where
  total_revenue : ℚ
  installation_revenue : ℚ
  manufacturing_revenue : ℚ
  total_cost : ℚ
  total_profit : ℚ
  profit_margin : ℚ
  monthly_revenue : List (String × ℚ)
  average_project_value : ℚ
deriving DecidableEq, Repr

/-- `AnalyticsEngine._get_financial_analytics` (lines 67-91): revenue by
project type over the non-deleted projects, assumed fixed 70/30
cost/profit split. -/
def financial_analytics (s : Store) : FinancialAnalytics :=
  let projects := get_all_projects s none
  let installation_revenue :=
    ((projects.filter (fun p => p.type == "installation")).map (fun p => p.budget)).sum
  let manufacturing_revenue :=
    ((projects.filter (fun p => p.type == "manufacturing")).map (fun p => p.budget)).sum
  let total_cost := (projects.map (fun p => p.budget * (7 / 10))).sum
  let total_profit := (projects.map (fun p => p.budget * (3 / 10))).sum
  { total_revenue := (projects.map (fun p => p.budget)).sum
    installation_revenue := installation_revenue
    manufacturing_revenue := manufacturing_revenue
    total_cost := total_cost
    total_profit := total_profit
    profit_margin :=
      if 0 < total_cost + total_profit then total_profit / (total_cost + total_profit) * 100
      else 0
    monthly_revenue := calculate_monthly_revenue s
    average_project_value :=
      if projects.isEmpty then 0
      else (projects.map (fun p => p.budget)).sum / (projects.length : ℚ) }

structure OperationalAnalytics where
  average_project_duration : ℚ
  attendance_rate : ℚ
  total_attendance_records : Nat
  projects_on_time : Nat
  projects_delayed : Nat
deriving DecidableEq, Repr

/-- `AnalyticsEngine._get_operational_analytics` (lines 93-122):
`np.mean` of the day-count durations, today's attendance rate over
active employees, completed and delayed project counts. -/
def operational_analytics (s : Store) (now : DateTime) : OperationalAnalytics :=
  let projects := get_all_projects s none
  let attendance_records := s.attendance
  let durations := projects.filterMap (fun p =>
    match p.start_date, p.end_date with
    | some sd, some ed => some (ed.rataDie - sd.rataDie)
    | _, _ => none)
  let today := dateIso now.date
  let today_attendance := (attendance_records.filter (fun r => r.date == today)).length
  let total_employees :=
    ((get_all_users s none).filter (fun u => u.role == "employee")).length
  { average_project_duration :=
      if durations.isEmpty then 0
      else ((durations.map (fun d => (d : ℚ))).sum) / (durations.length : ℚ)
    attendance_rate :=
      if 0 < total_employees then (today_attendance : ℚ) / (total_employees : ℚ) * 100
      else 0
    total_attendance_records := attendance_records.length
    projects_on_time := (projects.filter (fun p => p.status == "completed")).length
    projects_delayed := (projects.filter (fun p =>
      p.status == "in_progress" &&
      match p.end_date with
      | some ed => DateTime.lt { date := ed, secondOfDay := 0 } now
      | none => false)).length }

structure EmployeePerf where
  name : String
  total_projects : Nat
  completed_projects : Nat
  completion_rate : ℚ
  total_revenue : ℚ
deriving DecidableEq, Repr

structure DeptStats where
  projects : Nat
  revenue : ℚ
  employees : Nat
deriving DecidableEq, Repr

/-- Per-employee block built inside `_get_performance_analytics`. -/
def employeePerfOf (projects : List Project) (u : User) : EmployeePerf :=
  let assigned := projects.filter (fun p => p.assigned_employees.contains u.id)
  let completed := assigned.filter (fun p => p.status == "completed")
  { name := u.name
    total_projects := assigned.length
    completed_projects := completed.length
    completion_rate :=
      if assigned.isEmpty then 0
      else (completed.length : ℚ) / (assigned.length : ℚ) * 100
    total_revenue := (assigned.map (fun p => p.budget)).sum }

structure PerformanceAnalytics where
  employee_performance : List (String × EmployeePerf)
  department_performance : List (String × DeptStats)
  top_performers : List EmployeePerf
deriving DecidableEq, Repr

/-- defaultdict accumulation for department statistics; the three `+=`
of one loop iteration are applied together. -/
def bumpDept (l : List (String × DeptStats)) (k : String) (f : DeptStats → DeptStats) :
    List (String × DeptStats) :=
  match l with
  | [] => [(k, f { projects := 0, revenue := 0, employees := 0 })]
  | (k0, v0) :: rest =>
    if k0 == k then (k0, f v0) :: rest else (k0, v0) :: bumpDept rest k f

/-- `AnalyticsEngine._get_performance_analytics` (lines 124-160):
per-employee and per-department stats over active users, plus the top 5
performers by completion rate (Python's stable `sorted(...,
reverse=True)` is a stable merge sort with the reversed key order). -/
def performance_analytics (s : Store) : PerformanceAnalytics :=
  let projects := get_all_projects s none
  let users := get_all_users s none
  let employee_performance := users.foldl
    (fun acc u =>
      if u.role == "employee" then setAssoc acc u.id (employeePerfOf projects u) else acc) []
  let department_performance := users.foldl
    (fun acc u =>
      if u.role == "employee" then
        let assigned := projects.filter (fun p => p.assigned_employees.contains u.id)
        bumpDept acc u.department (fun d =>
          { projects := d.projects + assigned.length
            revenue := d.revenue + (assigned.map (fun p => p.budget)).sum
            employees := d.employees + 1 })
      else acc) []
  { employee_performance := employee_performance
    department_performance := department_performance
    top_performers :=
      ((employee_performance.map (fun kv => kv.2)).mergeSort
        (fun a b => decide (b.completion_rate ≤ a.completion_rate))).take 5 }

/-! ### Custom report generation (analytics_engine.py lines 377-414) -/

/-- The `data` payload of a custom report, one shape per report type. -/
inductive ReportData where
  | financial (d : FinancialAnalytics)
  | operational (d : OperationalAnalytics)
  | performance (d : PerformanceAnalytics)
deriving DecidableEq, Repr

/-- The `filters` dict argument of `generate_custom_report`. -/
abbrev Filters := List (String × String)

structure Report where
  report_type : String
  generated_at : String
  data : ReportData
  filters_applied : Filters
deriving DecidableEq, Repr

/-- `AnalyticsEngine._generate_financial_report` (lines 388-395);
`generated_at` is `datetime.now().isoformat()`, an explicit parameter
here, and `filters or {}` maps a missing dict to the empty one. -/
def generate_financial_report (s : Store) (nowIso : String) (filters : Option Filters) :
    Report :=
  { report_type := "financial", generated_at := nowIso,
    data := ReportData.financial (financial_analytics s),
    filters_applied := filters.getD [] }

/-- `AnalyticsEngine._generate_operational_report` (lines 397-404). -/
def generate_operational_report (s : Store) (now : DateTime) (nowIso : String)
    (filters : Option Filters) : Report :=
  { report_type := "operational", generated_at := nowIso,
    data := ReportData.operational (operational_analytics s now),
    filters_applied := filters.getD [] }

/-- `AnalyticsEngine._generate_performance_report` (lines 406-414). -/
def generate_performance_report (s : Store) (nowIso : String) (filters : Option Filters) :
    Report :=
  { report_type := "performance", generated_at := nowIso,
    data := ReportData.performance (performance_analytics s),
    filters_applied := filters.getD [] }

/-- `AnalyticsEngine.generate_custom_report` (lines 377-386): dispatch
on the report type; an unknown type yields the error dict, embedded as
`none`. -/
def generate_custom_report (s : Store) (now : DateTime) (nowIso : String)
    (report_type : String) (filters : Option Filters) : Option Report :=
  if report_type == "financial" then some (generate_financial_report s nowIso filters)
  else if report_type == "operational" then
    some (generate_operational_report s now nowIso filters)
  else if report_type == "performance" then
    some (generate_performance_report s nowIso filters)
  else none

/-! ## Helper lemmas about the embedding -/

theorem length_updateFirst (p : α → Bool) (f : α → α) (l : List α) :
    (updateFirst p f l).length = l.length := by
  induction l with
  | nil => rfl
  | cons x xs ih =>
    by_cases h : p x = true <;> simp [updateFirst, h, ih]

theorem find?_updateFirst (p : α → Bool) (f : α → α) (l : List α)
    (hpf : ∀ a, p (f a) = p a) :
    (updateFirst p f l).find? p = (l.find? p).map f := by
  induction l with
  | nil => rfl
  | cons x xs ih =>
    by_cases h : p x = true
    · simp [updateFirst, h, List.find?_cons_of_pos, hpf, hpf x ▸ h]
    · have h2 : p x = false := by simpa using h
      simp [updateFirst, h2, List.find?_cons_of_neg, ih]

theorem mem_updateFirst_of_neg (p : α → Bool) (f : α → α) (l : List α) (a : α)
    (ha : a ∈ l) (hpa : p a = false) : a ∈ updateFirst p f l := by
  induction l with
  | nil => simp at ha
  | cons x xs ih =>
    rcases List.mem_cons.mp ha with rfl | hmem
    · simp [updateFirst, hpa]
    · by_cases h : p x = true
      · simp [updateFirst, h, hmem]
      · have h2 : p x = false := by simpa using h
        simp only [updateFirst, h2, Bool.false_eq_true, if_false, List.mem_cons]
        exact Or.inr (ih hmem)

theorem getD_map_of_lt {α β : Type} (f : α → β) (l : List α) (i : Nat) (d : α) (d2 : β)
    (h : i < l.length) :
    (l.map f).getD i d2 = f (l.getD i d) := by
  induction l generalizing i with
  | nil => simp at h
  | cons x xs ih =>
    cases i with
    | zero => simp
    | succ n =>
      simp only [List.map_cons, List.getD_cons_succ]
      exact ih n (by simpa using h)

/-! ## Claims -/

/-- C1 counterexample: bcrypt uses only the first 72 bytes of the
password, so the 72-byte and 73-byte all-'a' passwords are distinct yet
the second verifies against the hash of the first. -/
theorem C1_counterexample :
    List.replicate 73 (97 : Nat) ≠ List.replicate 72 (97 : Nat) ∧
    verify_password (List.replicate 72 (97 : Nat))
      (hash_password (List.replicate 73 (97 : Nat)) 0) = true := by
  constructor
  · decide
  · decide

/-- C1 (amended): `verify_password(P, hash_password(P))` is always true;
and `verify_password(P2, hash_password(P1))` is false whenever P1 and P2
differ within their first 72 bytes (beyond which bcrypt ignores the
password). -/
theorem C1_round_trip (p1 p2 : Bytes) (salt : Nat) :
    verify_password p1 (hash_password p1 salt) = true ∧
    (bcryptTruncate p1 ≠ bcryptTruncate p2 →
      verify_password p2 (hash_password p1 salt) = false) := by
  constructor
  · simp [verify_password, bcryptCheckpw, hash_password, bcryptHashpw, bcryptKdf]
  · intro h
    simp only [verify_password, bcryptCheckpw, hash_password, bcryptHashpw, bcryptKdf,
      beq_eq_false_iff_ne, ne_eq, BcryptHash.mk.injEq, not_and]
    intro _ _ hh
    exact h hh.symm

/-- C1 witness: instance of the amended theorem at concrete inputs. -/
theorem C1_round_trip_witness :
    verify_password [1] (hash_password [0] 0) = false :=
  (C1_round_trip [0] [1] 0).2 (by decide)

/-- C10: the record returned and stored by `create_user` carries the
input password verbatim; no hashing happens on the way in. -/
theorem C10_plaintext_password (s : Store) (ud : UserData) (now api_key : String) :
    (create_user s ud now api_key).1.password = ud.password ∧
    (create_user s ud now api_key).2.users
      = s.users ++ [(create_user s ud now api_key).1] := by
  exact ⟨rfl, rfl⟩

/-- C7 counterexample: the next-day regeneration draws a fresh random
number; when the draw collides with the stored OTP's draw, the value on
the following date equals the previous day's value. -/
theorem C7_counterexample :
    ({ daily_otp := otpOfDraw 5, daily_otp_date := "2024-01-01" } : Store).daily_otp_date
        ≠ "2024-01-02" ∧
    (get_daily_otp { daily_otp := otpOfDraw 5, daily_otp_date := "2024-01-01" }
        "2024-01-02" 5).1
      = ({ daily_otp := otpOfDraw 5, daily_otp_date := "2024-01-01" } : Store).daily_otp := by
  constructor
  · decide
  · decide

/-- C7 (amended): two `get_daily_otp` calls on the same date return the
same value; a call on a date different from the stored one regenerates,
storing today's date and returning the fresh draw's OTP string — which
is not guaranteed to differ from the previous value. -/
theorem C7_otp (s : Store) (today : String) (r1 r2 : Nat) :
    (get_daily_otp (get_daily_otp s today r1).2 today r2).1
        = (get_daily_otp s today r1).1 ∧
    (s.daily_otp_date ≠ today →
      (get_daily_otp s today r1).1 = otpOfDraw r1 ∧
      (get_daily_otp s today r1).2.daily_otp_date = today) := by
  constructor
  · by_cases h : s.daily_otp_date = today <;>
      simp [get_daily_otp, generate_daily_otp, set_daily_otp, h]
  · intro h
    simp [get_daily_otp, generate_daily_otp, set_daily_otp, h]

/-- C7 witness: instance of the amended theorem on a fresh store. -/
theorem C7_otp_witness :
    (get_daily_otp ({} : Store) "2024-01-02" 7).1 = otpOfDraw 7 :=
  ((C7_otp {} "2024-01-02" 7 0).2 (by decide)).1

/-- Concrete task input used for the C4 counterexample and witness. -/
def taskDataC4 (t : String) : TaskData := { title := t, created_by := "admin_001" }

/-- C4 counterexample: create two tasks, hard-delete the first, create
again — the new id `task_002` collides with the surviving task's id. -/
theorem C4_counterexample :
    (create_task (delete_task (create_task (create_task ({} : Store)
        (taskDataC4 "a") "t").2 (taskDataC4 "b") "t").2 "task_001").2
      (taskDataC4 "c") "t").1.id = "task_002" ∧
    "task_002" ∈ ((delete_task (create_task (create_task ({} : Store)
        (taskDataC4 "a") "t").2 (taskDataC4 "b") "t").2 "task_001").2.tasks.map
          (fun t => t.id)) := by
  constructor
  · decide
  · decide

/-- C4 (amended): every create operation assigns the id
`"{prefix}_{count+1:03d}"` from the collection's current length, and
creation preserves id-uniqueness exactly as long as that computed id is
not already present — a condition that can fail after a hard delete
(tasks, attendance), as the counterexample shows. -/
theorem C4_id_assignment (s : Store) (td : TaskData) (ud : UserData) (now api_key : String)
    (hn : (s.tasks.map (fun t => t.id)).Nodup)
    (hfresh : mkEntityId "task" s.tasks.length ∉ s.tasks.map (fun t => t.id)) :
    (create_task s td now).1.id = mkEntityId "task" s.tasks.length ∧
    (create_user s ud now api_key).1.id = mkEntityId ud.role s.users.length ∧
    ((create_task s td now).2.tasks.map (fun t => t.id)).Nodup := by
  refine ⟨rfl, rfl, ?_⟩
  simp only [create_task, List.map_append, List.map_cons, List.map_nil]
  rw [List.nodup_append]
  refine ⟨hn, List.nodup_singleton _, ?_⟩
  intro a ha hb
  simp at hb
  subst hb
  exact hfresh ha

/-- C4 witness: instance of the amended theorem on the empty store. -/
theorem C4_id_assignment_witness :
    ((create_task ({} : Store) (taskDataC4 "a") "t").2.tasks.map (fun t => t.id)).Nodup :=
  (C4_id_assignment {} (taskDataC4 "a")
    { name := "n", email := "e", password := "p", role := "employee" } "t" "k"
    (by decide) (by decide)).2.2

/-- Projection of the financial aggregation used by claim C5. -/
theorem installation_revenue_eq (s : Store) :
    (financial_analytics s).installation_revenue
      = (((get_all_projects s none).filter
          (fun p => p.type == "installation")).map (fun p => p.budget)).sum := rfl

/-- C5: creating a project with budget 50000 and type "installation"
makes the financial analytics report `installation_revenue ≥ 50000`,
provided the store satisfies the data-model invariant that budgets are
non-negative. -/
theorem C5_installation_revenue (s : Store) (pd : ProjectData) (now : String)
    (hb : pd.budget = some 50000) (ht : pd.type = "installation")
    (hpos : ∀ p ∈ s.projects, 0 ≤ p.budget) :
    50000 ≤ (financial_analytics (create_project s pd now).2).installation_revenue := by
  rw [installation_revenue_eq]
  have hnew : (create_project s pd now).2.projects
      = s.projects ++ [(create_project s pd now).1] := rfl
  have hstat : ((create_project s pd now).1.status != "deleted") = true := rfl
  have htype : ((create_project s pd now).1.type == "installation") = true := by
    simp [create_project, ht]
  have hbud : (create_project s pd now).1.budget = 50000 := by
    simp [create_project, hb]
  simp only [get_all_projects, hnew, List.filter_append, List.filter_cons, hstat, htype,
    if_true, List.filter_nil, List.map_append, List.map_cons, List.map_nil,
    List.sum_append, List.sum_cons, List.sum_nil, hbud]
  have h0 : 0 ≤ (((s.projects.filter (fun p => p.status != "deleted")).filter
      (fun p => p.type == "installation")).map (fun p => p.budget)).sum := by
    apply List.sum_nonneg
    intro x hx
    obtain ⟨p, hp, rfl⟩ := List.mem_map.mp hx
    exact hpos p (List.mem_of_mem_filter (List.mem_of_mem_filter hp))
  linarith

/-- Concrete project input used for the C5 witness. -/
def projDataC5 : ProjectData :=
  { name := "p", type := "installation", client_id := "client_001",
    budget := some 50000, created_by := "admin_001" }

/-- C5 witness: the theorem applied to the empty store. -/
theorem C5_installation_revenue_witness :
    50000 ≤ (financial_analytics (create_project {} projDataC5 "t").2).installation_revenue :=
  C5_installation_revenue {} projDataC5 "t" rfl rfl (by simp)

/-- C8: for each of the three known report types, the `data` field of a
custom report is a function of the store and the clock alone — the
`filters` argument never reaches the computation and is only echoed in
`filters_applied`. -/
theorem C8_filters_not_applied (s : Store) (now : DateTime) (nowIso : String) (rt : String)
    (hrt : rt = "financial" ∨ rt = "operational" ∨ rt = "performance")
    (f1 f2 : Option Filters) :
    (generate_custom_report s now nowIso rt f1).map (fun r => r.data)
      = (generate_custom_report s now nowIso rt f2).map (fun r => r.data) := by
  rcases hrt with h | h | h <;> subst h <;> rfl

/-- Concrete clock value used for the C8 witness. -/
def dtC8 : DateTime := { date := { year := 2024, month := 1, day := 1 }, secondOfDay := 0 }

/-- C8 witness: financial report on a fresh store, with and without a
filter dict. -/
theorem C8_filters_not_applied_witness :
    (generate_custom_report {} dtC8 "t" "financial"
        (some [("start_date", "2024-01-01")])).map (fun r => r.data)
      = (generate_custom_report {} dtC8 "t" "financial" none).map (fun r => r.data) :=
  C8_filters_not_applied {} dtC8 "t" "financial" (Or.inl rfl)
    (some [("start_date", "2024-01-01")]) none

/-- Fallback record for positional access in theorem statements. -/
def dummyProject : Project :=
  { id := "", name := "", type := "", client_id := "", description := "",
    status := "", created_at := "", created_by := "" }

/-- The date-driven status evolution of one `auto_update_project_status`
call, as the amended claim C6 states it: a pending project whose start
date has passed moves to in_progress — or straight to completed when its
end date has also passed; an in_progress project whose end date has
passed moves to completed; everything else keeps its status. -/
def autoStatusSpec (today : Date) (p : Project) : String :=
  if p.status = "pending" then
    match p.start_date with
    | none => "pending"
    | some sd =>
      if Date.le sd today then
        match p.end_date with
        | none => "in_progress"
        | some ed => if Date.le ed today then "completed" else "in_progress"
      else "pending"
  else if p.status = "in_progress" then
    match p.end_date with
    | none => "in_progress"
    | some ed => if Date.le ed today then "completed" else "in_progress"
  else p.status

theorem autoUpdateOne_status (today : Date) (now : String) (p : Project) :
    (autoUpdateOne today now p).status = autoStatusSpec today p := by
  unfold autoUpdateOne autoStatusSpec
  cases hs : p.start_date <;> cases he : p.end_date <;>
    by_cases h1 : p.status = "pending" <;> by_cases h2 : p.status = "in_progress" <;>
      simp [h1, h2, hs, he] <;> split_ifs <;> simp_all

theorem autoUpdateOne_frame (today : Date) (now : String) (p : Project)
    (h1 : p.status ≠ "pending") (h2 : p.status ≠ "in_progress") :
    autoUpdateOne today now p = p := by
  unfold autoUpdateOne
  simp [h1, h2]

/-- C6 (amended): one call of `auto_update_project_status` rewrites each
project's status according to `autoStatusSpec` — in particular a pending
project whose start AND end dates have both passed flips straight to
completed, not to in_progress — and leaves projects in any other status
entirely unchanged. -/
theorem C6_auto_status (s : Store) (today : Date) (now : String) (i : Nat)
    (hi : i < s.projects.length) :
    ((auto_update_project_status s today now).projects.getD i dummyProject).status
        = autoStatusSpec today (s.projects.getD i dummyProject) ∧
    ((s.projects.getD i dummyProject).status ≠ "pending" →
      (s.projects.getD i dummyProject).status ≠ "in_progress" →
      (auto_update_project_status s today now).projects.getD i dummyProject
        = s.projects.getD i dummyProject) := by
  have hmap : (auto_update_project_status s today now).projects
      = s.projects.map (autoUpdateOne today now) := rfl
  constructor
  · rw [hmap, getD_map_of_lt (autoUpdateOne today now) s.projects i dummyProject _ hi]
    exact autoUpdateOne_status today now _
  · intro h1 h2
    rw [hmap, getD_map_of_lt (autoUpdateOne today now) s.projects i dummyProject _ hi]
    exact autoUpdateOne_frame today now _ h1 h2

/-- Concrete pending project with both dates in the past, for C6. -/
def projC6 : Project :=
  { id := "project_001", name := "p", type := "installation", client_id := "client_001",
    description := "", status := "pending",
    start_date := some { year := 2024, month := 1, day := 1 },
    end_date := some { year := 2024, month := 1, day := 2 },
    created_at := "", created_by := "" }

/-- C6 counterexample: a pending project with non-empty start_date ≤
today does NOT always move to in_progress — with its end date also
past, one call takes it straight to completed. -/
theorem C6_counterexample :
    projC6.status = "pending" ∧
    projC6.start_date = some { year := 2024, month := 1, day := 1 } ∧
    Date.le { year := 2024, month := 1, day := 1 }
      { year := 2024, month := 6, day := 1 } = true ∧
    ((auto_update_project_status { projects := [projC6] }
        { year := 2024, month := 6, day := 1 } "t").projects.getD 0 dummyProject).status
      = "completed" := by
  refine ⟨rfl, rfl, by decide, by decide⟩

/-- C6 witness: the amended theorem applied to the concrete store. -/
theorem C6_auto_status_witness :
    ((auto_update_project_status { projects := [projC6] }
        { year := 2024, month := 6, day := 1 } "t").projects.getD 0 dummyProject).status
      = autoStatusSpec { year := 2024, month := 6, day := 1 } projC6 :=
  (C6_auto_status { projects := [projC6] } { year := 2024, month := 6, day := 1 } "t" 0
    (by decide)).1

/-- Creating a client and then a project never touches the leads list,
so a lead lookup commutes with the two creations. -/
theorem get_lead_by_id_create (s : Store) (cd : ClientData) (pd : ProjectData)
    (now now2 lid : String) :
    get_lead_by_id (create_project (create_client s cd now).2 pd now2).2 lid
      = get_lead_by_id s lid := rfl

/-- C2: converting a lead that is present in the store appends exactly
one new client and one new project whose `client_id` is the new client's
id, sets that lead's status to "converted", preserves the number of
leads and every other lead record, and leaves users, attendance and
tasks untouched. -/
theorem C2_convert_lead (s : Store) (lid : String) (form : ConvertForm)
    (session_user now : String) (lead : Lead)
    (h : get_lead_by_id s lid = some lead) :
    ∃ c p,
      (convert_lead s lid form session_user now).clients = s.clients ++ [c] ∧
      (convert_lead s lid form session_user now).projects = s.projects ++ [p] ∧
      p.client_id = c.id ∧
      (get_lead_by_id (convert_lead s lid form session_user now) lid).map
          (fun l => l.status) = some "converted" ∧
      (convert_lead s lid form session_user now).leads.length = s.leads.length ∧
      (∀ l ∈ s.leads, l.id ≠ lid →
        l ∈ (convert_lead s lid form session_user now).leads) ∧
      (convert_lead s lid form session_user now).users = s.users ∧
      (convert_lead s lid form session_user now).attendance = s.attendance ∧
      (convert_lead s lid form session_user now).tasks = s.tasks := by
  unfold convert_lead
  rw [h]
  dsimp only
  unfold update_lead
  rw [get_lead_by_id_create, h]
  dsimp only
  refine ⟨_, _, rfl, rfl, rfl, ?_, ?_, ?_, rfl, rfl, rfl⟩
  · have hf := find?_updateFirst (fun x : Lead => x.id == lid)
      (fun x => { x with status := "converted", updated_at := some now }) s.leads
      (fun a => rfl)
    unfold get_lead_by_id at h
    rw [h] at hf
    exact congrArg (Option.map (fun l => l.status)) hf
  · exact length_updateFirst _ _ _
  · intro l hl hne
    exact mem_updateFirst_of_neg _ _ _ _ hl (by simpa using hne)

/-- Concrete lead and form used for the C2 witness. -/
def leadC2 : Lead :=
  { id := "lead_001", name := "Mike", email := "mike@megacorp.com", phone := "1",
    company := "MegaCorp", business_type := "installation", source := "website",
    status := "new", assigned_to := "", notes := "", created_at := "",
    created_by := "admin_001" }

def formC2 : ConvertForm :=
  { client_name := "MegaCorp", company := "MegaCorp", project_name := "Proj",
    project_type := "installation", description := "" }

/-- C2 witness: conversion on a one-lead store flips the status. -/
theorem C2_convert_lead_witness :
    (get_lead_by_id (convert_lead { leads := [leadC2] } "lead_001" formC2
        "admin_001" "t") "lead_001").map (fun l => l.status) = some "converted" := by
  obtain ⟨c, p, h1, h2, h3, h4, h5, h6, h7, h8, h9⟩ :=
    C2_convert_lead { leads := [leadC2] } "lead_001" formC2 "admin_001" "t" leadC2
      (by decide)
  exact h4

/-- Members of the soft-deleted clients list that still carry the
deleted id must be the updated record, hence inactive (id-uniqueness
makes the first match the only match). -/
theorem updated_of_mem_updateFirst (l : List Client) (cid now : String)
    (hn : (l.map (fun x => x.id)).Nodup) :
    ∀ c2 ∈ updateFirst (fun c => c.id == cid)
        (fun c => { c with status := "inactive", deleted_at := some now }) l,
      c2.id = cid → c2.status = "inactive" := by
  induction l with
  | nil => intro c2 hc2; simp [updateFirst] at hc2
  | cons x xs ih =>
    intro c2 hc2 hid
    simp only [List.map_cons, List.nodup_cons] at hn
    by_cases hx : (x.id == cid) = true
    · have hxid : x.id = cid := by simpa using hx
      simp only [updateFirst, hx, if_true, List.mem_cons] at hc2
      rcases hc2 with rfl | hc2
      · rfl
      · exact absurd (List.mem_map.mpr ⟨c2, hc2, hid.trans hxid.symm⟩) hn.1
    · have hx2 : (x.id == cid) = false := by simpa using hx
      simp only [updateFirst, hx2, Bool.false_eq_true, if_false, List.mem_cons] at hc2
      rcases hc2 with rfl | hc2
      · exact absurd hid (by simpa using hx2)
      · exact ih hn.2 c2 hc2 hid

/-- C3: after a successful `delete_client`, the id no longer appears in
`get_all_clients()` while `get_client_by_id` still returns the record,
now with status "inactive" (stated under the data-model invariant that
client ids are unique). -/
theorem C3_soft_delete (s : Store) (cid now : String) (c : Client)
    (hn : (s.clients.map (fun x => x.id)).Nodup)
    (h : get_client_by_id s cid = some c) :
    (delete_client s cid now).1 = true ∧
    (∀ c2 ∈ get_all_clients (delete_client s cid now).2 none, c2.id ≠ cid) ∧
    get_client_by_id (delete_client s cid now).2 cid
      = some { c with status := "inactive", deleted_at := some now } := by
  refine ⟨?_, ?_, ?_⟩
  · simp [delete_client, h]
  · intro c2 hc2 heq
    simp only [delete_client, h, get_all_clients] at hc2
    have h1 : c2 ∈ updateFirst (fun x => x.id == cid)
        (fun x => { x with status := "inactive", deleted_at := some now }) s.clients :=
      List.mem_of_mem_filter hc2
    have h2 : (c2.status == "active") = true := (List.mem_filter.mp hc2).2
    have h3 := updated_of_mem_updateFirst s.clients cid now hn c2 h1 heq
    rw [h3] at h2
    simp at h2
  · have hf := find?_updateFirst (fun x : Client => x.id == cid)
      (fun x => { x with status := "inactive", deleted_at := some now }) s.clients
      (fun a => rfl)
    have h2 := h
    unfold get_client_by_id at h2
    rw [h2] at hf
    unfold delete_client
    rw [h]
    exact hf

/-- Concrete client used for the C3 witness. -/
def clientC3 : Client :=
  { id := "client_001", name := "TechCorp", email := "c@techcorp.com", phone := "",
    company := "", business_type := "installation", address := "", created_at := "",
    status := "active" }

/-- C3 witness: soft delete on a one-client store. -/
theorem C3_soft_delete_witness :
    get_client_by_id (delete_client { clients := [clientC3] } "client_001" "t").2
        "client_001"
      = some { clientC3 with status := "inactive", deleted_at := some "t" } :=
  (C3_soft_delete { clients := [clientC3] } "client_001" "t" clientC3
    (by decide) (by decide)).2.2

theorem enrichAttendance_eq_pos (users : List User) (date : String) (r : Attendance)
    (u : User) (hdate : r.date = date)
    (hu : users.find? (fun x => x.id == r.employee_id) = some u) :
    enrichAttendance users date r
      = { r with employee_name := some u.name, department := some u.department } := by
  unfold enrichAttendance
  rw [hdate, hu]
  simp

theorem enrichAttendance_eq_neg_date (users : List User) (date : String) (r : Attendance)
    (hne : r.date ≠ date) : enrichAttendance users date r = r := by
  unfold enrichAttendance
  simp [hne]

theorem enrichAttendance_eq_neg_user (users : List User) (date : String) (r : Attendance)
    (hnone : users.find? (fun x => x.id == r.employee_id) = none) :
    enrichAttendance users date r = r := by
  unfold enrichAttendance
  rw [hnone]
  split <;> rfl

/-- Fallback record for positional access in theorem statements. -/
def dummyAttendance : Attendance :=
  { id := "", employee_id := "", date := "", check_in := "", check_out := "",
    otp_used := "", location := "", status := "" }

/-- C9: the read query `get_attendance_by_date` mutates the store.
Every attendance record whose date matches and whose employee resolves
gains (or has overwritten) `employee_name` and `department` copied from
the user record, and those fields are part of the document written by
the next `save_data`; records not matching are unchanged, and no other
collection or field of the store changes. -/
theorem C9_attendance_join (s : Store) (date : String) (department : Option String) :
    (save_data (get_attendance_by_date s date department).2).attendance.length
        = s.attendance.length ∧
    (∀ i, i < s.attendance.length →
      let r := s.attendance.getD i dummyAttendance
      let r2 := (save_data
        (get_attendance_by_date s date department).2).attendance.getD i dummyAttendance
      (r.date = date →
        ∀ u, s.users.find? (fun x => x.id == r.employee_id) = some u →
          r2 = { r with employee_name := some u.name, department := some u.department }) ∧
      ((r.date ≠ date ∨ s.users.find? (fun x => x.id == r.employee_id) = none) →
        r2 = r)) ∧
    ((get_attendance_by_date s date department).2.users = s.users ∧
     (get_attendance_by_date s date department).2.clients = s.clients ∧
     (get_attendance_by_date s date department).2.projects = s.projects ∧
     (get_attendance_by_date s date department).2.leads = s.leads ∧
     (get_attendance_by_date s date department).2.tasks = s.tasks ∧
     (get_attendance_by_date s date department).2.daily_otp = s.daily_otp ∧
     (get_attendance_by_date s date department).2.daily_otp_date = s.daily_otp_date) := by
  refine ⟨by simp [save_data, get_attendance_by_date], ?_,
    rfl, rfl, rfl, rfl, rfl, rfl, rfl⟩
  intro i hi
  have hg : (save_data
      (get_attendance_by_date s date department).2).attendance.getD i dummyAttendance
      = enrichAttendance s.users date (s.attendance.getD i dummyAttendance) :=
    getD_map_of_lt _ _ _ dummyAttendance _ hi
  constructor
  · intro hdate u hu
    exact hg.trans (enrichAttendance_eq_pos s.users date _ u hdate hu)
  · intro hcase
    rcases hcase with hne | hnone
    · exact hg.trans (enrichAttendance_eq_neg_date _ _ _ hne)
    · exact hg.trans (enrichAttendance_eq_neg_user _ _ _ hnone)

/-- Concrete user and attendance record used for the C9 witness. -/
def userC9 : User :=
  { id := "employee_001", name := "Sarah", email := "s@x.com", password := "h",
    role := "employee", department := "Installation", created_at := "",
    status := "active", api_key := "" }

def attC9 : Attendance :=
  { id := "attendance_001", employee_id := "employee_001", date := "2024-01-01",
    check_in := "09:00:00", check_out := "", otp_used := "", location := "",
    status := "present" }

/-- C9 witness: the stored record of a matching date gains the joined-in
employee fields, visible in the next persisted document. -/
theorem C9_attendance_join_witness :
    (save_data (get_attendance_by_date { users := [userC9], attendance := [attC9] }
        "2024-01-01" none).2).attendance.getD 0 dummyAttendance
      = { attC9 with employee_name := some "Sarah", department := some "Installation" } := by
  have h := (C9_attendance_join { users := [userC9], attendance := [attC9] }
    "2024-01-01" none).2.1 0 (by decide)
  exact h.1 (by decide) userC9 (by decide)

end ERP
